import Mathlib

set_option maxRecDepth 40000

/-!
Verification of the trigger/acquisition layer of the python-ivi DMM drivers
(keithley199, keithley192, prema6031A, philipsPM2534, agilent3456A).

The drivers are shallowly embedded: each Python method becomes a Lean
function over an explicit driver-state record and an explicit wire record
(pending reply lines plus the transcript of transport events).  Python
exceptions become an `Except`-style outcome carried next to the state, so
that a raised exception still leaves the (possibly mutated) state visible,
exactly as in Python.  Python floats on the measurement path are modelled
as exact rationals plus the two infinities the drivers produce.

The generic framework module (ivi/ivi.py) and the dmm base classes
(ivi/dmm.py) are not part of the source tree given here; where a driver
calls into them the behaviour is modelled from the spec and marked
`Modelled from the spec:` in the doc comment.
-/

/-- Error kinds raised by the drivers.  `valueNotSupported`,
`unexpectedResponse`, `triggerNotSoftware` and `operationNotSupported`
mirror the ivi exception classes the drivers raise; `keyError` and
`valueError` model the corresponding uncaught Python exceptions
(dictionary miss, malformed float literal).  `rangeNotSupported` is
modelled from the spec: the spec's error taxonomy lists a distinct
`RangeNotSupported` kind, which no driver in the source ever raises; the
constructor exists so that statements about it can be written down. -/
inductive IviError where
  | valueNotSupported
  | unexpectedResponse (raw : String)
  | triggerNotSoftware
  | operationNotSupported
  | keyError
  | valueError
  | rangeNotSupported
  deriving DecidableEq, Repr

/-- A Python float as produced on the measurement path: an exact finite
rational, or one of the two infinities the drivers create with
float('+inf') / float('-inf'). -/
inductive PyFloat where
  | fin (q : ℚ)
  | inf
  | negInf
  deriving DecidableEq, Repr

/-- One transport event: a command sent to the instrument, one reply
record received from it, or a bus trigger pulse. -/
inductive Ev where
  | send (data : String)
  | recv (data : String)
  | trig
  deriving DecidableEq, Repr

/-- The transport as seen by one driver session: the stream of reply
records the instrument will transmit, and the transcript of events so
far. -/
structure Wire where
  replies : List String
  tx : List Ev
  deriving DecidableEq, Repr

/-- Commands sent, in order, in a transcript. -/
def sendsOf (tx : List Ev) : List String :=
  tx.filterMap (fun e => match e with | Ev.send s => some s | _ => none)

/-- Number of receive operations in a transcript. -/
def recvCount (tx : List Ev) : Nat :=
  (tx.filter (fun e => match e with | Ev.recv _ => true | _ => false)).length

instance {ε α : Type} [DecidableEq ε] [DecidableEq α] : DecidableEq (Except ε α)
  | Except.error e, Except.error f =>
    if h : e = f then isTrue (by rw [h]) else isFalse (fun hh => h (Except.error.inj hh))
  | Except.error _, Except.ok _ => isFalse (fun h => Except.noConfusion h)
  | Except.ok _, Except.error _ => isFalse (fun h => Except.noConfusion h)
  | Except.ok a, Except.ok b =>
    if h : a = b then isTrue (by rw [h]) else isFalse (fun hh => h (Except.ok.inj hh))

/-- Result of running one driver operation: the driver state afterwards,
the wire afterwards, and either the returned value or the exception that
propagated.  A raised exception still carries the mutated state and the
events performed before the raise, as in Python. -/
structure Res (σ : Type) (α : Type) where
  st : σ
  w : Wire
  out : Except IviError α

/-- Modelled from the spec: the framework transport write
(Driver._write_raw in ivi/ivi.py, absent from src/).  The spec states
that simulate mode suppresses all wire I/O, so under simulate nothing is
sent; otherwise the command is appended to the transcript. -/
def rawWrite (sim : Bool) (w : Wire) (data : String) : Wire :=
  if sim then w else { w with tx := w.tx ++ [Ev.send data] }

/-- Modelled from the spec: the framework transport read
(Driver._read_raw in ivi/ivi.py, absent from src/).  The spec states that
simulate mode skips every wire read; otherwise one reply record is
consumed (an exhausted stream yields the empty record) and logged. -/
def rawRead (sim : Bool) (w : Wire) : String × Wire :=
  if sim then ("", w)
  else
    match w.replies with
    | [] => ("", { w with tx := w.tx ++ [Ev.recv ""] })
    | r :: rs => (r, { replies := rs, tx := w.tx ++ [Ev.recv r] })

/-- Modelled from the spec: the framework ask (write then read). -/
def rawAsk (sim : Bool) (w : Wire) (data : String) : String × Wire :=
  rawRead sim (rawWrite sim w data)

/-- Lowercasing of an ASCII command string, as Python str.lower on the
values the drivers handle. -/
def strLower (s : String) : String :=
  ⟨s.data.map Char.toLower⟩

/-- Association-list lookup with decidable key equality, modelling a
Python dict lookup (insertion order preserved, as OrderedDict). -/
def lookupStr {α : Type} : List (String × α) → String → Option α
  | [], _ => none
  | (k, v) :: rest, key => if key = k then some v else lookupStr rest key

/-- Value of a list of decimal digit characters (most significant
first). -/
def digitsToNat (cs : List Char) : Nat :=
  cs.foldl (fun a c => 10 * a + (c.toNat - 48)) 0

/-- A digit or a decimal point, the character class of the numeric
mantissa field in the reply grammars. -/
def digitOrDot (c : Char) : Bool :=
  c.isDigit || c = '.'

/-- Python float() on a mantissa made of digits and dots: defined when
there is at most one dot and at least one digit, as in Python
(float('1.2.3') and float('.') raise ValueError).  Returns the mantissa
as an integer together with the number of fractional digits, so that the
mantissa denotes m / 10 ^ fracLen. -/
def mantVal (cs : List Char) : Option (Nat × Nat) :=
  if ¬ cs.all digitOrDot then none
  else if cs.count '.' = 0 then
    if cs.isEmpty then none else some (digitsToNat cs, 0)
  else if cs.count '.' = 1 then
    let i := cs.takeWhile (fun c => c ≠ '.')
    let f := (cs.dropWhile (fun c => c ≠ '.')).tail
    if i.isEmpty ∧ f.isEmpty then none
    else some (digitsToNat i * 10 ^ f.length + digitsToNat f, f.length)
  else none

/-- Python float() on a numeric field of the shape the reply grammars
produce: a sign, a mantissa of digits and dots, the letter E, a sign and
exponent digits.  Returns none where Python float() raises ValueError.
The value is built with Rat.divInt from integer arithmetic, denoting
sign * mantissa * 10 ^ exponent exactly. -/
def pyFloatOfField (cs : List Char) : Option ℚ :=
  match cs with
  | sg :: rest =>
    if sg = '+' ∨ sg = '-' then
      let mant := rest.takeWhile (fun c => c ≠ 'E')
      match (rest.dropWhile (fun c => c ≠ 'E')) with
      | 'E' :: esg :: edigits =>
        if (esg = '+' ∨ esg = '-') ∧ edigits ≠ [] ∧ edigits.all Char.isDigit then
          match mantVal mant with
          | none => none
          | some (m, fracLen) =>
            let eAbs := digitsToNat edigits
            let num : ℤ :=
              (if sg = '-' then -1 else 1) *
                (m * 10 ^ (if esg = '-' then 0 else eAbs) : ℕ)
            let den : ℕ := 10 ^ (fracLen + (if esg = '-' then eAbs else 0))
            some (Rat.divInt num den)
        else none
      | _ => none
    else none
  | [] => none

/-- The sixteen-zero record that marks a never-written slot of the
readings memory ('0' * 16 in the drivers). -/
def sentinel16 : String := "0000000000000000"

/-- Full-line match of the keithley199 reply grammar, the regex
([OZN])(DCV|ACV|DCI|ACI|OHM)([+-][0-9.]#8#E[+-]d),Bddd,Cd where #8#
stands for exactly eight characters and d for one digit.  On success
returns the status character and the characters of the numeric group. -/
def match199 (s : String) : Option (Char × List Char) :=
  match s.data with
  | st :: t1 :: t2 :: t3 :: sg :: m1 :: m2 :: m3 :: m4 :: m5 :: m6 :: m7 :: m8 ::
      e :: es :: ed :: c1 :: b :: b1 :: b2 :: b3 :: c2 :: cc :: cd :: [] =>
    if (st = 'O' ∨ st = 'Z' ∨ st = 'N')
        ∧ ([t1, t2, t3] = ['D', 'C', 'V'] ∨ [t1, t2, t3] = ['A', 'C', 'V']
           ∨ [t1, t2, t3] = ['D', 'C', 'I'] ∨ [t1, t2, t3] = ['A', 'C', 'I']
           ∨ [t1, t2, t3] = ['O', 'H', 'M'])
        ∧ (sg = '+' ∨ sg = '-')
        ∧ [m1, m2, m3, m4, m5, m6, m7, m8].all digitOrDot
        ∧ e = 'E' ∧ (es = '+' ∨ es = '-') ∧ ed.isDigit
        ∧ c1 = ',' ∧ b = 'B' ∧ b1.isDigit ∧ b2.isDigit ∧ b3.isDigit
        ∧ c2 = ',' ∧ cc = 'C' ∧ cd.isDigit then
      some (st, [sg, m1, m2, m3, m4, m5, m6, m7, m8, e, es, ed])
    else none
  | _ => none

/-- keithley199._parse_measurement_result: strict full-line match of the
reply grammar (failure raises UnexpectedResponse carrying the raw line),
then the numeric field goes through float() (a malformed literal raises
ValueError), and an O status tag turns the value into a signed
infinity. -/
def parse199 (raw : String) : Except IviError PyFloat :=
  match match199 raw with
  | none => Except.error (IviError.unexpectedResponse raw)
  | some (status, field) =>
    match pyFloatOfField field with
    | none => Except.error IviError.valueError
    | some q =>
      if status = 'O' then
        if q < 0 then Except.ok PyFloat.negInf else Except.ok PyFloat.inf
      else Except.ok (PyFloat.fin q)

/-- keithley199._measurement_is_over_range: the value equals
float('inf'). -/
def isOverRange199 (v : PyFloat) : Bool :=
  match v with
  | PyFloat.inf => true
  | _ => false

/-- keithley199._measurement_is_under_range: the value equals
float('-inf'). -/
def isUnderRange199 (v : PyFloat) : Bool :=
  match v with
  | PyFloat.negInf => true
  | _ => false

/-- Full-line match of the keithley192 reply grammar, the regex
([OZN])(DCV|ACV|OHM)([+-][0-9.]#8#E[+-]d) with #8# standing for exactly
eight characters and d for one digit. -/
def match192 (s : String) : Option (Char × List Char) :=
  match s.data with
  | st :: t1 :: t2 :: t3 :: sg :: m1 :: m2 :: m3 :: m4 :: m5 :: m6 :: m7 :: m8 ::
      e :: es :: ed :: [] =>
    if (st = 'O' ∨ st = 'Z' ∨ st = 'N')
        ∧ ([t1, t2, t3] = ['D', 'C', 'V'] ∨ [t1, t2, t3] = ['A', 'C', 'V']
           ∨ [t1, t2, t3] = ['O', 'H', 'M'])
        ∧ (sg = '+' ∨ sg = '-')
        ∧ [m1, m2, m3, m4, m5, m6, m7, m8].all digitOrDot
        ∧ e = 'E' ∧ (es = '+' ∨ es = '-') ∧ ed.isDigit then
      some (st, [sg, m1, m2, m3, m4, m5, m6, m7, m8, e, es, ed])
    else none
  | _ => none

/-- keithley192._parse_measurement_result, same shape as the 199 parser
but against the 192 grammar. -/
def parse192 (raw : String) : Except IviError PyFloat :=
  match match192 raw with
  | none => Except.error (IviError.unexpectedResponse raw)
  | some (status, field) =>
    match pyFloatOfField field with
    | none => Except.error IviError.valueError
    | some q =>
      if status = 'O' then
        if q < 0 then Except.ok PyFloat.negInf else Except.ok PyFloat.inf
      else Except.ok (PyFloat.fin q)

/-- TriggerSourceMapping of keithley199.py. -/
def TriggerSourceMapping199 : List (String × String) :=
  [("immediate", "5"), ("bus", "3"), ("external", "7")]

/-- MeasurementFunctionMapping of keithley199.py. -/
def MeasurementFunctionMapping199 : List (String × String) :=
  [("dc_volts", "0"), ("ac_volts", "1"), ("two_wire_resistance", "2"),
   ("four_wire_resistance", "2"), ("dc_current", "3"), ("ac_current", "4")]

/-- RangeMapping of keithley199.py: per measurement function, the ordered
table from maximum absolute magnitude to range code (OrderedDict keeps
insertion order). -/
def RangeMapping199 : List (String × List (ℚ × String)) :=
  [("dc_volts", [(0.3, "1"), (3.0, "2"), (30.0, "3"), (300.0, "4")]),
   ("ac_volts", [(0.3, "1"), (3.0, "2"), (30.0, "3"), (300.0, "4")]),
   ("two_wire_resistance",
     [(0.3e3, "1"), (3e3, "2"), (30e3, "3"), (300e3, "4"), (3000e3, "5"),
      (30e6, "6"), (300e6, "7")]),
   ("four_wire_resistance",
     [(0.3e3, "1"), (3e3, "2"), (30e3, "3"), (300e3, "4"), (3000e3, "5"),
      (30e6, "6"), (300e6, "7")]),
   ("dc_current", [(0.03, "1"), (3.0, "2")]),
   ("ac_current", [(0.03, "1"), (3.0, "2")])]

/-- Configuration State of a keithley199 session.  The fields are the
cached attributes the driver reads and writes; the base-class setters
(ivi/dmm.py, absent from src/) are modelled from the spec as plain field
updates of this record. -/
structure St199 where
  simulate : Bool
  triggerSource : String
  measFunc : String
  range : ℚ
  autoRange : String
  delay : ℚ
  delayAuto : Bool
  mpCount : ℤ
  mpSampleCount : ℤ
  mpSampleTrigger : String
  mpSampleInterval : ℤ
  mcDest : String
  deriving DecidableEq, Repr

/-- keithley199._write: when clear_data is set, the command ends in X and
the trigger source is immediate, the write is turned into an ask whose
reply is discarded (clearing the measurement the X may have triggered);
otherwise a plain write. -/
def write199 (st : St199) (w : Wire) (data : String) (clearData : Bool) : Wire :=
  if clearData ∧ data.data.getLast? = some 'X' ∧ strLower st.triggerSource = "immediate" then
    (rawAsk st.simulate w data).2
  else rawWrite st.simulate w data

/-- keithley199._set_trigger_source: validate against the trigger-source
mapping, update the cached field, then (unless simulating) emit TnX with
clear_data. -/
def setTriggerSource199 (st : St199) (w : Wire) (v : String) : Res St199 Unit :=
  match lookupStr TriggerSourceMapping199 (strLower v) with
  | none => ⟨st, w, Except.error IviError.valueNotSupported⟩
  | some code =>
    let st1 := { st with triggerSource := v }
    if st1.simulate then ⟨st1, w, Except.ok ()⟩
    else ⟨st1, write199 st1 w ("T" ++ code ++ "X") true, Except.ok ()⟩

/-- Python round() (banker's rounding, ties to even) on a rational. -/
def pyRound (q : ℚ) : ℤ :=
  let f := ⌊q⌋
  let r := q - f
  if r < 1 / 2 then f
  else if 1 / 2 < r then f + 1
  else if f % 2 = 0 then f else f + 1

/-- keithley199._set_trigger_delay: reject values above 999.999, clear
delay-auto, update the cached delay, then (unless simulating) emit the
delay in milliseconds. -/
def setTriggerDelay199 (st : St199) (w : Wire) (v : ℚ) : Res St199 Unit :=
  if 999.999 < v then ⟨st, w, Except.error IviError.valueNotSupported⟩
  else
    let st1 := { st with delayAuto := false, delay := v }
    if st1.simulate then ⟨st1, w, Except.ok ()⟩
    else ⟨st1, write199 st1 w ("W" ++ toString (pyRound (v * 1000)) ++ "X") true, Except.ok ()⟩

/-- keithley199._set_trigger_delay_auto: enabling auto first sets the
delay to zero (through the delay setter, wire writes included), then the
cached auto flag is updated. -/
def setTriggerDelayAuto199 (st : St199) (w : Wire) (v : Bool) : Res St199 Unit :=
  let r := if v then setTriggerDelay199 st w 0 else ⟨st, w, Except.ok ()⟩
  match r.out with
  | Except.error e => ⟨r.st, r.w, Except.error e⟩
  | Except.ok _ => ⟨{ r.st with delayAuto := v }, r.w, Except.ok ()⟩

/-- keithley199._set_measurement_function: validate, update the cached
field, then emit FnX with clear_data.  Note the source has no simulate
guard here; the write call is unconditional (its stdout print is not a
transport event and is not modelled). -/
def setMeasurementFunction199 (st : St199) (w : Wire) (v : String) : Res St199 Unit :=
  match lookupStr MeasurementFunctionMapping199 (strLower v) with
  | none => ⟨st, w, Except.error IviError.valueNotSupported⟩
  | some code =>
    let st1 := { st with measFunc := v }
    ⟨st1, write199 st1 w ("F" ++ code ++ "X") true, Except.ok ()⟩

/-- Scan of an ordered range table for the first key at or above the
requested magnitude, as the for-loop over the OrderedDict items in
_set_range. -/
def firstGE (tbl : List (ℚ × String)) (m : ℚ) : Option String :=
  match tbl with
  | [] => none
  | (k, v) :: rest => if |m| ≤ k then some v else firstGE rest m

/-- keithley199._set_range: look the current function's table up (a
missing function is a Python KeyError), take the first suitable range
code, raise ValueNotSupported when none fits, update the cached range,
then (unless simulating) emit RnX with clear_data. -/
def setRange199 (st : St199) (w : Wire) (v : ℚ) : Res St199 Unit :=
  match lookupStr RangeMapping199 st.measFunc with
  | none => ⟨st, w, Except.error IviError.keyError⟩
  | some rangeMap =>
    match firstGE rangeMap v with
    | none => ⟨st, w, Except.error IviError.valueNotSupported⟩
    | some code =>
      let st1 := { st with range := v }
      if st1.simulate then ⟨st1, w, Except.ok ()⟩
      else ⟨st1, write199 st1 w ("R" ++ code ++ "X") true, Except.ok ()⟩

/-- keithley199._set_auto_range: validate on/off, update the cached
field, then (unless simulating) emit R0X for on, or re-run the range
setter on the stored range for off. -/
def setAutoRange199 (st : St199) (w : Wire) (v : String) : Res St199 Unit :=
  if ¬ (strLower v = "on" ∨ strLower v = "off") then
    ⟨st, w, Except.error IviError.valueNotSupported⟩
  else
    let st1 := { st with autoRange := v }
    if st1.simulate then ⟨st1, w, Except.ok ()⟩
    else if v = "on" then ⟨st1, write199 st1 w "R0X" true, Except.ok ()⟩
    else setRange199 st1 w st1.range

/-- keithley199._send_software_trigger: a no-op under simulate, an error
unless the trigger source is bus, otherwise a bus trigger pulse (the
framework _trigger primitive, modelled from the spec as one pulse
event). -/
def sendSoftwareTrigger199 (st : St199) (w : Wire) : Res St199 Unit :=
  if st.simulate then ⟨st, w, Except.ok ()⟩
  else if ¬ (strLower st.triggerSource = "bus") then
    ⟨st, w, Except.error IviError.triggerNotSoftware⟩
  else ⟨st, { w with tx := w.tx ++ [Ev.trig] }, Except.ok ()⟩

/-- keithley199._set_trigger_measurement_complete_destination: only the
value none is accepted; the cached field is updated, nothing is sent. -/
def setMCDest199 (st : St199) (w : Wire) (v : String) : Res St199 Unit :=
  if ¬ (strLower v = "none") then ⟨st, w, Except.error IviError.valueNotSupported⟩
  else ⟨{ st with mcDest := v }, w, Except.ok ()⟩

/-- MultiPointTriggerMapping of keithley199._internal_setup_multi_point.
Its keys are the short forms imm, bus and ext, although the driver's
trigger-source values are immediate, bus and external. -/
def MultiPointTriggerMapping199 : List (String × List (String × Nat)) :=
  [("imm", [("imm", 4), ("bus", 2), ("ext", 6)]),
   ("bus", [("imm", 2)]),
   ("ext", [("imm", 6)])]

/-- keithley199._internal_setup_multi_point: with both counts 1 the
multi-point mode is disabled with B0Q0I0Tn (no simulate write); otherwise
both counts above 1 is rejected, the trigger mapping is consulted (a
KeyError becomes ValueNotSupported), the low bit of the trigger code is
forced to 1 exactly when trigger count exceeds 1, and Q1Tn is emitted
unless simulating.  Returns the wire and the exception, if one was
raised. -/
def setupMP199 (st : St199) (w : Wire) : Wire × Option IviError :=
  if st.mpSampleCount = 1 ∧ st.mpCount = 1 then
    if st.simulate then (w, none)
    else
      match lookupStr TriggerSourceMapping199 (strLower st.triggerSource) with
      | none => (w, some IviError.keyError)
      | some code => (write199 st w ("B0Q0I0T" ++ code) true, none)
  else if 1 < min st.mpSampleCount st.mpCount then (w, some IviError.valueNotSupported)
  else
    match (lookupStr MultiPointTriggerMapping199 (strLower st.triggerSource)).bind
        (fun inner => lookupStr inner (strLower st.mpSampleTrigger)) with
    | none => (w, some IviError.valueNotSupported)
    | some trigger =>
      let lastBit : Nat := if 1 < st.mpCount then 1 else 0
      let trigger2 := (trigger &&& 0xfe) ||| lastBit
      if st.simulate then (w, none)
      else (write199 st w ("Q1T" ++ toString trigger2) true, none)

/-- keithley199._set_trigger_multi_point_count: zero means the full
memory, the value must lie in 1..500, the cached field is updated and
then (unless skip_setup) the multi-point setup is re-applied -- so a
combination rejected by the setup leaves the field already updated. -/
def setMPCount199 (st : St199) (w : Wire) (v : ℤ) (skipSetup : Bool) : Res St199 Unit :=
  let v1 := if v = 0 then 500 else v
  if ¬ (1 ≤ v1 ∧ v1 ≤ 500) then ⟨st, w, Except.error IviError.valueNotSupported⟩
  else
    let st1 := { st with mpCount := v1 }
    if skipSetup then ⟨st1, w, Except.ok ()⟩
    else
      let p := setupMP199 st1 w
      ⟨st1, p.1, match p.2 with | some err => Except.error err | none => Except.ok ()⟩

/-- keithley199._set_trigger_multi_point_sample_count, same shape as the
trigger-count setter. -/
def setMPSampleCount199 (st : St199) (w : Wire) (v : ℤ) (skipSetup : Bool) : Res St199 Unit :=
  let v1 := if v = 0 then 500 else v
  if ¬ (1 ≤ v1 ∧ v1 ≤ 500) then ⟨st, w, Except.error IviError.valueNotSupported⟩
  else
    let st1 := { st with mpSampleCount := v1 }
    if skipSetup then ⟨st1, w, Except.ok ()⟩
    else
      let p := setupMP199 st1 w
      ⟨st1, p.1, match p.2 with | some err => Except.error err | none => Except.ok ()⟩

/-- keithley199._set_trigger_multi_point_sample_interval: only zero is
supported. -/
def setMPSampleInterval199 (st : St199) (w : Wire) (v : ℤ) (skipSetup : Bool) : Res St199 Unit :=
  if ¬ (v = 0) then ⟨st, w, Except.error IviError.valueNotSupported⟩
  else
    let st1 := { st with mpSampleInterval := v }
    if skipSetup then ⟨st1, w, Except.ok ()⟩
    else
      let p := setupMP199 st1 w
      ⟨st1, p.1, match p.2 with | some err => Except.error err | none => Except.ok ()⟩

/-- keithley199._set_trigger_multi_point_sample_trigger: validated
against the trigger-source mapping (so its lowercased value is immediate,
bus or external -- never a key of the multi-point mapping). -/
def setMPSampleTrigger199 (st : St199) (w : Wire) (v : String) (skipSetup : Bool) : Res St199 Unit :=
  match lookupStr TriggerSourceMapping199 (strLower v) with
  | none => ⟨st, w, Except.error IviError.valueNotSupported⟩
  | some _ =>
    let st1 := { st with mpSampleTrigger := v }
    if skipSetup then ⟨st1, w, Except.ok ()⟩
    else
      let p := setupMP199 st1 w
      ⟨st1, p.1, match p.2 with | some err => Except.error err | none => Except.ok ()⟩

/-- keithley199._measurement_initiate: a no-op under simulate, otherwise
the multi-point setup is re-applied and then the trigger command X is
written unconditionally (clear_data stays at its default false here). -/
def initiate199 (st : St199) (w : Wire) : Res St199 Unit :=
  if st.simulate then ⟨st, w, Except.ok ()⟩
  else
    let p := setupMP199 st w
    match p.2 with
    | some err => ⟨st, p.1, Except.error err⟩
    | none => ⟨st, write199 st p.1 "X" false, Except.ok ()⟩

/-- keithley199._measurement_fetch: a no-op returning the no-data
indicator under simulate, otherwise one reply record is read and
parsed. -/
def fetch199 (st : St199) (w : Wire) (_maxTime : ℤ) : Res St199 (Option PyFloat) :=
  if st.simulate then ⟨st, w, Except.ok none⟩
  else
    let p := rawRead st.simulate w
    ⟨st, p.2, (parse199 p.1).map some⟩

/-- keithley199._measurement_read: ask X and parse the reply (the
overridden _write dispatched by the framework ask runs with its default
clear_data false, so this is a plain write followed by a read). -/
def read199 (st : St199) (w : Wire) (_maxTime : ℤ) : Res St199 (Option PyFloat) :=
  if st.simulate then ⟨st, w, Except.ok none⟩
  else
    let p := rawAsk st.simulate w "X"
    ⟨st, p.2, (parse199 p.1).map some⟩

/-- The reading loop shared verbatim by _measurement_fetch_multi_point of
keithley199.py and keithley192.py: read n records; a record that is not
the sixteen-zero sentinel and whose position is below the requested
count is parsed and collected; a parse failure propagates at once. -/
def drainLoop (parse : String → Except IviError PyFloat) (sim : Bool) (w : Wire)
    (n : Nat) (idx : Nat) (nMeas : ℤ) : Wire × Except IviError (List PyFloat) :=
  match n with
  | 0 => (w, Except.ok [])
  | Nat.succ n1 =>
    let p := rawRead sim w
    if p.1 ≠ sentinel16 ∧ (idx : ℤ) < nMeas then
      match parse p.1 with
      | Except.error e => (p.2, Except.error e)
      | Except.ok v =>
        match drainLoop parse sim p.2 n1 (idx + 1) nMeas with
        | (w2, Except.ok vs) => (w2, Except.ok (v :: vs))
        | (w2, Except.error e) => (w2, Except.error e)
    else drainLoop parse sim p.2 n1 (idx + 1) nMeas

/-- keithley199._measurement_fetch_multi_point: the no-data indicator
under simulate, ValueNotSupported for any max_time other than 0, zero
requested measurements means the full memory, then exactly 500 records
(the 199 readings memory size) are drained. -/
def fetchMP199 (st : St199) (w : Wire) (maxTime : ℤ) (nMeas : ℤ) : Res St199 (Option (List PyFloat)) :=
  if st.simulate then ⟨st, w, Except.ok none⟩
  else if ¬ (maxTime = 0) then ⟨st, w, Except.error IviError.valueNotSupported⟩
  else
    let n1 := if nMeas = 0 then 500 else nMeas
    let p := drainLoop parse199 st.simulate w 500 0 n1
    match p.2 with
    | Except.ok vs => ⟨st, p.1, Except.ok (some vs)⟩
    | Except.error e => ⟨st, p.1, Except.error e⟩

/-- keithley199._measurement_read_multi_point: initiate, then fetch the
multi-point buffer; the fetched readings are not returned (the source
has no return statement), so a normal completion yields Python None. -/
def readMP199 (st : St199) (w : Wire) (maxTime nMeas : ℤ) : Res St199 (Option (List PyFloat)) :=
  if st.simulate then ⟨st, w, Except.ok none⟩
  else
    let r1 := initiate199 st w
    match r1.out with
    | Except.error e => ⟨r1.st, r1.w, Except.error e⟩
    | Except.ok _ =>
      let r2 := fetchMP199 r1.st r1.w maxTime nMeas
      ⟨r2.st, r2.w,
        match r2.out with
        | Except.error e => Except.error e
        | Except.ok _ => Except.ok none⟩

/-- TriggerSourceMapping of keithley192.py (short forms, unlike the
199). -/
def TriggerSourceMapping192 : List (String × String) :=
  [("imm", "5"), ("bus", "3")]

/-- RangeMapping of keithley192.py. -/
def RangeMapping192 : List (String × List (ℚ × String)) :=
  [("dc_volts",
     [(0.2, "1"), (2.0, "2"), (20.0, "3"), (200.0, "4"), (2000.0, "5")]),
   ("two_wire_resistance",
     [(0.2e3, "1"), (2e3, "2"), (20e3, "3"), (200e3, "4"), (2000e3, "5"), (20e6, "6")]),
   ("four_wire_resistance",
     [(0.2e3, "1"), (2e3, "2"), (20e3, "3"), (200e3, "4"), (2000e3, "5"), (20e6, "6")])]

/-- Configuration State of a keithley192 session (the fields the modelled
operations touch). -/
structure St192 where
  simulate : Bool
  triggerSource : String
  measFunc : String
  range : ℚ
  mpCount : ℤ
  mpSampleCount : ℤ
  mpSampleTrigger : String
  deriving DecidableEq, Repr

/-- keithley192._write, as the 199 version but keyed on the short source
name imm (the 192 default for clear_data is true; call sites pass it
explicitly here). -/
def write192 (st : St192) (w : Wire) (data : String) (clearData : Bool) : Wire :=
  if clearData ∧ data.data.getLast? = some 'X' ∧ strLower st.triggerSource = "imm" then
    (rawAsk st.simulate w data).2
  else rawWrite st.simulate w data

/-- keithley192._set_range, the same first-fit scan as the 199 against
the 192 tables. -/
def setRange192 (st : St192) (w : Wire) (v : ℚ) : Res St192 Unit :=
  match lookupStr RangeMapping192 st.measFunc with
  | none => ⟨st, w, Except.error IviError.keyError⟩
  | some rangeMap =>
    match firstGE rangeMap v with
    | none => ⟨st, w, Except.error IviError.valueNotSupported⟩
    | some code =>
      let st1 := { st with range := v }
      if st1.simulate then ⟨st1, w, Except.ok ()⟩
      else ⟨st1, write192 st1 w ("R" ++ code ++ "X") true, Except.ok ()⟩

/-- keithley192._internal_setup_multi_point: both counts 1 disables
multi-point with Q0Tn; bus/bus and imm/imm-with-trigger-count-above-1
are rejected; the low bit of the trigger code is 1 exactly when the
trigger count equals the full memory size 100; Q1Tn is emitted unless
simulating. -/
def setupMP192 (st : St192) (w : Wire) : Wire × Option IviError :=
  if st.mpSampleCount = 1 ∧ st.mpCount = 1 then
    if st.simulate then (w, none)
    else
      match lookupStr TriggerSourceMapping192 (strLower st.triggerSource) with
      | none => (w, some IviError.keyError)
      | some code => (write192 st w ("Q0T" ++ code) true, none)
  else if strLower st.triggerSource = "bus" ∧ strLower st.mpSampleTrigger = "bus" then
    (w, some IviError.valueNotSupported)
  else if strLower st.triggerSource = "imm" ∧ strLower st.mpSampleTrigger = "imm"
      ∧ 1 < st.mpCount then
    (w, some IviError.valueNotSupported)
  else
    let lastBit : Nat := if st.mpCount = 100 then 1 else 0
    let trigger : String :=
      if strLower st.triggerSource = "bus" ∨ strLower st.mpSampleTrigger = "bus"
      then "3" else "5"
    let trigger2 := (digitsToNat trigger.data &&& 0xfe) ||| lastBit
    if st.simulate then (w, none)
    else (write192 st w ("Q1T" ++ toString trigger2) true, none)

/-- keithley192._measurement_fetch_multi_point, identical to the 199
version except for the memory size 100. -/
def fetchMP192 (st : St192) (w : Wire) (maxTime : ℤ) (nMeas : ℤ) : Res St192 (Option (List PyFloat)) :=
  if st.simulate then ⟨st, w, Except.ok none⟩
  else if ¬ (maxTime = 0) then ⟨st, w, Except.error IviError.valueNotSupported⟩
  else
    let n1 := if nMeas = 0 then 100 else nMeas
    let p := drainLoop parse192 st.simulate w 100 0 n1
    match p.2 with
    | Except.ok vs => ⟨st, p.1, Except.ok (some vs)⟩
    | Except.error e => ⟨st, p.1, Except.error e⟩

/-- MeasurementFunctionMapping of prema6031A.py. -/
def MeasurementFunctionMappingPrema : List (String × String) :=
  [("dc_volts", "VD"), ("ac_volts", "VA"), ("ac_plus_dc_volts", "VC"),
   ("two_wire_resistance", "O2"), ("four_wire_resistance", "O4"),
   ("dc_current", "ID"), ("ac_current", "IA")]

/-- Configuration State of a prema6031A session (the fields the modelled
operation touches). -/
structure StPrema where
  simulate : Bool
  measFunc : String
  deriving DecidableEq, Repr

/-- prema6031A._set_measurement_function: validate, update the cached
field, then write the function token through the framework write (the
prema has no _write override and no simulate guard in this setter; the
framework suppresses the wire send under simulate). -/
def setMeasurementFunctionPrema (st : StPrema) (w : Wire) (v : String) : Res StPrema Unit :=
  match lookupStr MeasurementFunctionMappingPrema (strLower v) with
  | none => ⟨st, w, Except.error IviError.valueNotSupported⟩
  | some code =>
    let st1 := { st with measFunc := v }
    ⟨st1, rawWrite st1.simulate w code, Except.ok ()⟩

/-- RangeMax of philipsPM2534.py. -/
def RangeMaxPhilips : List (String × ℚ) :=
  [("dc_volts", 300), ("ac_volts", 300), ("two_wire_resistance", 300e6),
   ("four_wire_resistance", 3e6), ("dc_current", 3), ("ac_current", 3)]

/-- Configuration State of a philipsPM2534 session (the fields the
modelled operation touches). -/
structure StPhilips where
  simulate : Bool
  measFunc : String
  range : ℚ
  deriving DecidableEq, Repr

/-- Decimal rendering of a rational, standing in for the Python str()
formatting of the float magnitude in the philips range command; it only
shapes the text of the success-branch command and is not examined by any
theorem. -/
def ratStr (q : ℚ) : String := toString q

/-- philipsPM2534._set_range: reject a magnitude above the function's
maximum (a missing function is a Python KeyError), update the cached
range, then (unless simulating) write the RNG command. -/
def setRangePhilips (st : StPhilips) (w : Wire) (v : ℚ) : Res StPhilips Unit :=
  match lookupStr RangeMaxPhilips st.measFunc with
  | none => ⟨st, w, Except.error IviError.keyError⟩
  | some mx =>
    if ¬ (|v| ≤ mx) then ⟨st, w, Except.error IviError.valueNotSupported⟩
    else
      let st1 := { st with range := v }
      if st1.simulate then ⟨st1, w, Except.ok ()⟩
      else ⟨st1, rawWrite st1.simulate w ("RNG " ++ ratStr |v|), Except.ok ()⟩


/-- A concrete non-simulate keithley199 state used by witnesses and
counterexamples: bus triggering, both multi-point counts 1. -/
def stEx199 : St199 :=
  { simulate := false, triggerSource := "bus", measFunc := "dc_volts", range := 0,
    autoRange := "off", delay := 0, delayAuto := true, mpCount := 1, mpSampleCount := 1,
    mpSampleTrigger := "immediate", mpSampleInterval := 0, mcDest := "none" }

/-- An idle wire: no pending replies, empty transcript. -/
def wEmpty : Wire := ⟨[], []⟩


/-- A 500-record reply stream whose first record is the empty-slot
sentinel and whose second record is a valid reading. -/
def wSentFirst500 : Wire := ⟨sentinel16 :: "NDCV+09.99354E+0,B000,C0" :: List.replicate 498 sentinel16, []⟩

/-- A 500-record reply stream of empty-slot sentinels only. -/
def wAllSent500 : Wire := ⟨List.replicate 500 sentinel16, []⟩

/-- A concrete non-simulate keithley192 state used by witnesses: bus
triggering with immediate sample trigger, trigger count 100 (the full
memory) and sample count 1. -/
def stEx192 : St192 :=
  { simulate := false, triggerSource := "bus", measFunc := "dc_volts", range := 0,
    mpCount := 100, mpSampleCount := 1, mpSampleTrigger := "imm" }

/-- The same 199 session state with the simulate flag cleared, used to
compare a simulate-mode run against its non-simulate counterpart. -/
def noSim199 (st : St199) : St199 := { st with simulate := false }

/-- The same prema session state with the simulate flag cleared. -/
def noSimPrema (st : StPrema) : StPrema := { st with simulate := false }

/-- The same philips session state with the simulate flag cleared. -/
def noSimPhilips (st : StPhilips) : StPhilips := { st with simulate := false }

section Claims

/-- Helper: appending events does not lose earlier sends. -/
theorem sendsOf_append (tx l : List Ev) : sendsOf (tx ++ l) = sendsOf tx ++ sendsOf l := by
  simp [sendsOf]

/-- Helper: appending events adds their receive count. -/
theorem recvCount_append (tx l : List Ev) : recvCount (tx ++ l) = recvCount tx + recvCount l := by
  simp [recvCount, List.filter_append]

/-- C6: for both the keithley199 and keithley192 reply parsers, the
UnexpectedResponse error (carrying the offending raw line) is raised
exactly when the raw line fails the strict full-line grammar match, and
the literal reply NDCV+09.99354E+0,B000,C0 decodes to the value 9.99354,
classified as normal (neither over-range nor under-range). -/
theorem claim6_decoder_strict :
    (∀ raw : String,
      (parse199 raw = Except.error (IviError.unexpectedResponse raw) ↔ match199 raw = none))
    ∧ (∀ raw : String,
      (parse192 raw = Except.error (IviError.unexpectedResponse raw) ↔ match192 raw = none))
    ∧ parse199 "NDCV+09.99354E+0,B000,C0" = Except.ok (PyFloat.fin 9.99354)
    ∧ isOverRange199 (PyFloat.fin 9.99354) = false
    ∧ isUnderRange199 (PyFloat.fin 9.99354) = false := by
  refine ⟨?_, ?_, ?_, rfl, rfl⟩
  · intro raw
    cases hm : match199 raw with
    | none => simp [parse199, hm]
    | some pr =>
      obtain ⟨status, field⟩ := pr
      simp only [parse199, hm]
      constructor
      · intro h
        cases hp : pyFloatOfField field with
        | none => rw [hp] at h; exact absurd h (by simp)
        | some q =>
          rw [hp] at h
          dsimp only at h
          by_cases hst : status = 'O'
          · rw [if_pos hst] at h
            by_cases hq : q < 0
            · rw [if_pos hq] at h; cases h
            · rw [if_neg hq] at h; cases h
          · rw [if_neg hst] at h; cases h
      · intro h; cases h
  · intro raw
    cases hm : match192 raw with
    | none => simp [parse192, hm]
    | some pr =>
      obtain ⟨status, field⟩ := pr
      simp only [parse192, hm]
      constructor
      · intro h
        cases hp : pyFloatOfField field with
        | none => rw [hp] at h; exact absurd h (by simp)
        | some q =>
          rw [hp] at h
          dsimp only at h
          by_cases hst : status = 'O'
          · rw [if_pos hst] at h
            by_cases hq : q < 0
            · rw [if_pos hq] at h; cases h
            · rw [if_neg hq] at h; cases h
          · rw [if_neg hst] at h; cases h
      · intro h; cases h
  · have h1 : parse199 "NDCV+09.99354E+0,B000,C0"
        = Except.ok (PyFloat.fin (Rat.divInt 999354 100000)) := by decide
    have h2 : Rat.divInt 999354 100000 = (9.99354 : ℚ) := by
      rw [Rat.divInt_eq_div]; norm_num
    rw [h1, h2]

/-- C7 (amended): on a grammar-matching keithley199 reply whose status
tag is O, the parsed numeric field's sign is preserved as a signed
infinity: a negative field yields float('-inf'), on which the driver's
over-range predicate is false and the under-range predicate is true,
while a non-negative field yields float('+inf'), on which the over-range
predicate holds. -/
theorem claim7_overflow_by_sign (raw : String) (status : Char) (field : List Char) (q : ℚ)
    (hm : match199 raw = some (status, field)) (hs : status = 'O')
    (hq : pyFloatOfField field = some q) :
    (q < 0 → parse199 raw = Except.ok PyFloat.negInf
        ∧ isOverRange199 PyFloat.negInf = false
        ∧ isUnderRange199 PyFloat.negInf = true)
    ∧ (0 ≤ q → parse199 raw = Except.ok PyFloat.inf
        ∧ isOverRange199 PyFloat.inf = true
        ∧ isUnderRange199 PyFloat.inf = false) := by
  subst hs
  constructor
  · intro h
    refine ⟨?_, rfl, rfl⟩
    simp [parse199, hm, hq, h]
  · intro h
    refine ⟨?_, rfl, rfl⟩
    simp [parse199, hm, hq, not_lt.mpr h]

/-- C7 counterexample: the overflow reply with a negative numeric field
decodes to float('-inf'), and the driver's over-range predicate is false
on that value -- refuting the claim that the over-range predicate holds
for both signs. -/
theorem claim7_counterexample :
    parse199 "ODCV-09.99354E+0,B000,C0" = Except.ok PyFloat.negInf
    ∧ isOverRange199 PyFloat.negInf = false := by decide

/-- C7 witness: the amended theorem applied to the positive-field
overflow reply. -/
theorem claim7_witness :
    parse199 "ODCV+09.99354E+0,B000,C0" = Except.ok PyFloat.inf
    ∧ isOverRange199 PyFloat.inf = true := by
  have h := claim7_overflow_by_sign "ODCV+09.99354E+0,B000,C0" 'O'
      (['+', '0', '9', '.', '9', '9', '3', '5', '4', 'E', '+', '0'])
      (Rat.divInt 999354 100000) (by decide) rfl (by decide)
  exact ⟨(h.2 (by decide)).1, (h.2 (by decide)).2.1⟩

/-- Helper: a raw write in non-simulate mode appends one send event. -/
theorem rawWrite_false (w : Wire) (d : String) :
    rawWrite false w d = { w with tx := w.tx ++ [Ev.send d] } := rfl

/-- Helper: a raw read in non-simulate mode appends one receive event. -/
theorem rawRead_false_tx (w : Wire) :
    (rawRead false w).2.tx = w.tx ++ [Ev.recv (rawRead false w).1] := by
  obtain ⟨rep, tx⟩ := w
  cases rep <;> rfl

/-- Helper: the 199 write reduces to a raw write whenever its
clear-data condition fails. -/
theorem write199_plain (st : St199) (w : Wire) (d : String) (cd : Bool)
    (h : ¬ (cd ∧ d.data.getLast? = some 'X' ∧ strLower st.triggerSource = "immediate")) :
    write199 st w d cd = rawWrite st.simulate w d := by
  unfold write199; rw [if_neg h]

/-- Helper: in non-simulate mode the 199 write always sends exactly its
command (the clear-data path additionally consumes one reply, which does
not change the send list). -/
theorem write199_sendsOf (st : St199) (w : Wire) (d : String) (cd : Bool)
    (h : st.simulate = false) :
    sendsOf (write199 st w d cd).tx = sendsOf w.tx ++ [d] := by
  unfold write199
  split_ifs with hc
  · unfold rawAsk
    rw [h, rawRead_false_tx, rawWrite_false]
    simp [sendsOf_append, sendsOf]
  · rw [h, rawWrite_false]
    simp [sendsOf_append, sendsOf]

/-- Helper: the codes of the 199 trigger-source mapping. -/
theorem ts199_vals {s c : String} (h : lookupStr TriggerSourceMapping199 s = some c) :
    c = "5" ∨ c = "3" ∨ c = "7" := by
  simp only [TriggerSourceMapping199, lookupStr] at h
  split_ifs at h <;> simp_all

/-- Helper: the codes of the 199 multi-point trigger mapping. -/
theorem mpt199_vals {s t : String} {n : Nat}
    (h : (lookupStr MultiPointTriggerMapping199 s).bind (fun inner => lookupStr inner t) = some n) :
    n = 4 ∨ n = 2 ∨ n = 6 := by
  cases ho : lookupStr MultiPointTriggerMapping199 s with
  | none => rw [ho] at h; cases h
  | some inner =>
    rw [ho] at h
    simp only [Option.bind] at h
    simp only [MultiPointTriggerMapping199, lookupStr] at ho
    split_ifs at ho <;>
      (injection ho with ho; subst ho; simp only [lookupStr] at h; split_ifs at h <;> simp_all)

/-- Helper: the trigger-matrix disable command never ends in X. -/
theorem b0q_not_X (c : String) (hc : c = "5" ∨ c = "3" ∨ c = "7") :
    ("B0Q0I0T" ++ c).data.getLast? ≠ some 'X' := by
  rcases hc with h | h | h <;> subst h <;> decide

/-- Helper: the multi-point trigger command never ends in X. -/
theorem q1t_not_X (n b : Nat) (hn : n = 4 ∨ n = 2 ∨ n = 6) (hb : b = 0 ∨ b = 1) :
    ("Q1T" ++ toString ((n &&& 254) ||| b)).data.getLast? ≠ some 'X' := by
  rcases hn with h | h | h <;> rcases hb with h2 | h2 <;> subst h <;> subst h2 <;> decide

/-- Helper: the one-shot bit is zero or one. -/
theorem ite01 (c : Prop) [Decidable c] : (if c then (1 : Nat) else 0) = 0 ∨ (if c then (1 : Nat) else 0) = 1 := by
  split_ifs
  · right; rfl
  · left; rfl

/-- Helper: the multi-point setup never changes the trigger code's last
character into X, so its writes are plain sends; in non-simulate mode a
successful setup therefore consumes no reply. -/
theorem setupMP199_ok_tx (st : St199) (w : Wire)
    (hsim : st.simulate = false) (hok : (setupMP199 st w).2 = none) :
    recvCount (setupMP199 st w).1.tx = recvCount w.tx
    ∧ (setupMP199 st w).1.replies = w.replies := by
  unfold setupMP199 at hok ⊢
  rw [hsim] at hok ⊢
  simp only [Bool.false_eq_true, if_false] at hok ⊢
  by_cases h1 : st.mpSampleCount = 1 ∧ st.mpCount = 1
  · rw [if_pos h1] at hok ⊢
    cases hcode : lookupStr TriggerSourceMapping199 (strLower st.triggerSource) with
    | none => rw [hcode] at hok; dsimp only at hok; cases hok
    | some code =>
      dsimp only
      rw [write199_plain st w _ _
          (fun hx => absurd hx.2.1 (b0q_not_X code (ts199_vals hcode))), hsim, rawWrite_false]
      exact ⟨by simp [recvCount_append, recvCount], rfl⟩
  · rw [if_neg h1] at hok ⊢
    by_cases h2 : 1 < min st.mpSampleCount st.mpCount
    · rw [if_pos h2] at hok; cases hok
    · rw [if_neg h2] at hok ⊢
      cases hmp : (lookupStr MultiPointTriggerMapping199 (strLower st.triggerSource)).bind
          (fun inner => lookupStr inner (strLower st.mpSampleTrigger)) with
      | none => rw [hmp] at hok; dsimp only at hok; cases hok
      | some trigger =>
        dsimp only
        rw [write199_plain st w _ _
            (fun hx => absurd hx.2.1
              (q1t_not_X trigger _ (mpt199_vals hmp) (ite01 (1 < st.mpCount)))),
          hsim, rawWrite_false]
        exact ⟨by simp [recvCount_append, recvCount], rfl⟩

/-- Helper: initiate never mutates the configuration state. -/
theorem initiate199_st (st : St199) (w : Wire) : (initiate199 st w).st = st := by
  unfold initiate199
  split_ifs
  · rfl
  · dsimp only
    cases (setupMP199 st w).2 <;> rfl

/-- Helper: a successful non-simulate initiate consumes no reply and
leaves the reply stream intact. -/
theorem initiate199_ok_tx (st : St199) (w : Wire)
    (hsim : st.simulate = false) (hok : (initiate199 st w).out = Except.ok ()) :
    recvCount (initiate199 st w).w.tx = recvCount w.tx
    ∧ (initiate199 st w).w.replies = w.replies := by
  unfold initiate199 at hok ⊢
  rw [hsim] at hok ⊢
  simp only [Bool.false_eq_true, if_false] at hok ⊢
  cases hsu : (setupMP199 st w).2 with
  | some e => rw [hsu] at hok; dsimp only at hok; cases hok
  | none =>
    dsimp only
    have hs := setupMP199_ok_tx st w hsim hsu
    rw [write199_plain st (setupMP199 st w).1 "X" false
        (fun hx => absurd hx.1 (by decide)), hsim, rawWrite_false]
    refine ⟨?_, hs.2⟩
    rw [recvCount_append, hs.1]
    rfl

/-- Helper: exact transcript of a successful non-simulate initiate in the
multi-point-disabled configuration: the trigger-matrix re-apply command
followed by the unconditional X. -/
theorem initiate199_tx (st : St199) (w : Wire) (code : String)
    (hsim : st.simulate = false) (htc : st.mpCount = 1) (hsc : st.mpSampleCount = 1)
    (hcode : lookupStr TriggerSourceMapping199 (strLower st.triggerSource) = some code) :
    initiate199 st w
      = ⟨st, { w with tx := w.tx ++ [Ev.send ("B0Q0I0T" ++ code), Ev.send "X"] },
          Except.ok ()⟩ := by
  have hsetup : setupMP199 st w
      = ({ w with tx := w.tx ++ [Ev.send ("B0Q0I0T" ++ code)] }, none) := by
    unfold setupMP199
    rw [if_pos ⟨hsc, htc⟩, hsim]
    simp only [Bool.false_eq_true, if_false]
    rw [hcode]
    dsimp only
    rw [write199_plain st w _ _
        (fun hx => absurd hx.2.1 (b0q_not_X code (ts199_vals hcode))), hsim, rawWrite_false]
  unfold initiate199
  rw [hsim]
  simp only [Bool.false_eq_true, if_false]
  rw [hsetup]
  dsimp only
  rw [write199_plain st _ "X" false (fun hx => absurd hx.1 (by decide)), hsim, rawWrite_false]
  simp

/-- C8 (amended): in non-simulate mode with multi-point disabled (both
counts 1) and a valid trigger source, keithley199._measurement_initiate
re-applies the trigger-matrix resolution (sending B0Q0I0Tn) and then
sends the single-measurement trigger command X unconditionally -- for
every trigger source, not only immediate. -/
theorem claim8_initiate_always_triggers (st : St199) (w : Wire) (code : String)
    (hsim : st.simulate = false) (htc : st.mpCount = 1) (hsc : st.mpSampleCount = 1)
    (hcode : lookupStr TriggerSourceMapping199 (strLower st.triggerSource) = some code) :
    (initiate199 st w).out = Except.ok ()
    ∧ (initiate199 st w).st = st
    ∧ (initiate199 st w).w.tx = w.tx ++ [Ev.send ("B0Q0I0T" ++ code), Ev.send "X"] := by
  rw [initiate199_tx st w code hsim htc hsc hcode]
  exact ⟨rfl, rfl, rfl⟩


/-- C8 counterexample: with trigger source bus (not immediate) and
multi-point disabled, initiate still sends the single-measurement
trigger command X after the trigger-matrix re-apply, refuting the claim
that no further command is sent when the source is not immediate. -/
theorem claim8_counterexample :
    strLower stEx199.triggerSource ≠ "immediate"
    ∧ (initiate199 stEx199 wEmpty).w.tx = [Ev.send "B0Q0I0T3", Ev.send "X"] := by decide

/-- C8 witness: the amended theorem applied to the external trigger
source. -/
theorem claim8_witness :
    (initiate199 { stEx199 with triggerSource := "external" } wEmpty).out = Except.ok ()
    ∧ (initiate199 { stEx199 with triggerSource := "external" } wEmpty).w.tx
        = wEmpty.tx ++ [Ev.send ("B0Q0I0T" ++ "7"), Ev.send "X"] := by
  have h := claim8_initiate_always_triggers { stEx199 with triggerSource := "external" }
    wEmpty "7" rfl rfl rfl (by decide)
  exact ⟨h.1, h.2.2⟩

/-- Helper: a raw read in non-simulate mode counts one receive. -/
theorem rawRead_false_recvCount (w : Wire) :
    recvCount (rawRead false w).2.tx = recvCount w.tx + 1 := by
  rw [rawRead_false_tx, recvCount_append]; rfl

/-- Helper: a drain that completes normally has performed exactly one
receive per memory slot. -/
theorem drainLoop_ok_recvCount (parse : String → Except IviError PyFloat) :
    ∀ (n : Nat) (w : Wire) (idx : Nat) (N : ℤ) (vs : List PyFloat),
      (drainLoop parse false w n idx N).2 = Except.ok vs →
      recvCount (drainLoop parse false w n idx N).1.tx = recvCount w.tx + n := by
  intro n
  induction n with
  | zero => intro w idx N vs _; rfl
  | succ n1 ih =>
    intro w idx N vs h
    rw [drainLoop] at h ⊢
    by_cases hc : (rawRead false w).1 ≠ sentinel16 ∧ (idx : ℤ) < N
    · rw [if_pos hc] at h ⊢
      cases hp : parse (rawRead false w).1 with
      | error e =>
        rw [hp] at h
        dsimp only at h
        cases h
      | ok v =>
        try rw [hp] at h
        try rw [hp]
        cases hdd : (drainLoop parse false (rawRead false w).2 n1 (idx + 1) N).2 with
        | error e =>
          try rw [hdd] at h
          try rw [hdd]
          rcases hp2 : drainLoop parse false (rawRead false w).2 n1 (idx + 1) N with ⟨w2, r2⟩
          rw [hp2] at hdd
          dsimp only at hdd
          subst hdd
          try rw [hp2] at h
          try rw [hp2]
          dsimp only at h
          cases h
        | ok vs2 =>
          rcases hp2 : drainLoop parse false (rawRead false w).2 n1 (idx + 1) N with ⟨w2, r2⟩
          rw [hp2] at hdd
          dsimp only at hdd
          subst hdd
          try rw [hp2] at h
          try rw [hp2]
          dsimp only at h ⊢
          have hih := ih (rawRead false w).2 (idx + 1) N vs2 (by rw [hp2])
          rw [hp2] at hih
          dsimp only at hih
          rw [hih, rawRead_false_recvCount]
          omega
    · rw [if_neg hc] at h ⊢
      have hih := ih (rawRead false w).2 (idx + 1) N vs h
      rw [hih, rawRead_false_recvCount]
      omega

/-- Helper: a fetch_multi_point call that returns normally in
non-simulate mode had max_time zero, yields a real list, and drained
exactly 500 records. -/
theorem fetchMP199_ok_shape (st : St199) (w : Wire) (mt n : ℤ) (v : Option (List PyFloat))
    (hsim : st.simulate = false) (h : (fetchMP199 st w mt n).out = Except.ok v) :
    mt = 0 ∧ (∃ vs, v = some vs)
    ∧ recvCount (fetchMP199 st w mt n).w.tx = recvCount w.tx + 500 := by
  unfold fetchMP199 at h ⊢
  rw [hsim] at h ⊢
  simp only [Bool.false_eq_true, if_false] at h ⊢
  by_cases hmt : mt = 0
  · subst hmt
    rw [if_neg (fun hh : ¬ (0 : ℤ) = 0 => hh rfl)] at h ⊢
    cases hr : (drainLoop parse199 false w 500 0 (if n = 0 then 500 else n)).2 with
    | error e =>
      try rw [hr] at h
      try rw [hr]
      dsimp only at h
      cases h
    | ok vs =>
      try rw [hr] at h
      try rw [hr]
      dsimp only at h ⊢
      refine ⟨rfl, ⟨vs, (Except.ok.inj h).symm⟩, ?_⟩
      exact drainLoop_ok_recvCount parse199 500 w 0 (if n = 0 then 500 else n) vs hr
  · rw [if_pos hmt] at h
    cases h

/-- C10: in non-simulate mode, whenever
keithley199._measurement_read_multi_point completes without an
exception, its return value is Python None -- the readings fetched by
the full 500-record drain (which did happen: exactly 500 receives) are
discarded, not returned. -/
theorem claim10_read_mp_returns_none (st : St199) (w : Wire) (mt n : ℤ)
    (r : Option (List PyFloat)) (hsim : st.simulate = false)
    (hok : (readMP199 st w mt n).out = Except.ok r) :
    r = none ∧ recvCount (readMP199 st w mt n).w.tx = recvCount w.tx + 500 := by
  unfold readMP199 at hok ⊢
  rw [hsim] at hok ⊢
  simp only [Bool.false_eq_true, if_false] at hok ⊢
  cases h1 : (initiate199 st w).out with
  | error e => rw [h1] at hok; cases hok
  | ok u =>
    rw [h1] at hok
    rw [initiate199_st] at hok ⊢
    cases h2 : (fetchMP199 st (initiate199 st w).w mt n).out with
    | error e => rw [h2] at hok; cases hok
    | ok v =>
      rw [h2] at hok
      refine ⟨(Except.ok.inj hok).symm, ?_⟩
      have hf := fetchMP199_ok_shape st (initiate199 st w).w mt n v hsim h2
      cases u
      have hi := initiate199_ok_tx st w hsim h1
      rw [hf.2.2, hi.1]

/-- C10 witness: the theorem applied to a concrete successful run (bus
triggering, multi-point disabled, 500 sentinel records pending). -/
theorem claim10_witness :
    (readMP199 stEx199 wAllSent500 0 0).out = Except.ok none
    ∧ recvCount (readMP199 stEx199 wAllSent500 0 0).w.tx = recvCount wAllSent500.tx + 500 := by
  have h := claim10_read_mp_returns_none stEx199 wAllSent500 0 0 none rfl (by decide)
  exact ⟨by decide, h.2⟩

/-- Helper: receive events of a list of records count its length. -/
theorem recvCount_map_recv (l : List String) : recvCount (l.map Ev.recv) = l.length := by
  induction l with
  | nil => rfl
  | cons a l ih => simp [recvCount, List.filter] at ih ⊢; exact ih

/-- Helper: full characterisation of a drain over well-formed records:
it consumes exactly n records, receives each of them in order, and
returns the parses of those records that are not the sentinel and whose
position (not their count) lies below the requested number. -/
theorem drainLoop_spec (parse : String → Except IviError PyFloat) :
    ∀ (n : Nat) (w : Wire) (idx : Nat) (N : ℤ),
      n ≤ w.replies.length →
      (∀ p ∈ (w.replies.take n).enumFrom idx, ((p.1 : ℤ) < N) →
          p.2 = sentinel16 ∨ (parse p.2).isOk = true) →
      ∃ vals,
        drainLoop parse false w n idx N
          = ({ replies := w.replies.drop n,
               tx := w.tx ++ (w.replies.take n).map Ev.recv }, Except.ok vals)
        ∧ List.Forall₂ (fun r v => parse r = Except.ok v)
            ((((w.replies.take n).enumFrom idx).filter
                (fun p => decide (p.2 ≠ sentinel16 ∧ (p.1 : ℤ) < N))).map Prod.snd) vals := by
  intro n
  induction n with
  | zero =>
    intro w idx N _ _
    refine ⟨[], ?_, by simp⟩
    rw [drainLoop]
    cases w
    simp
  | succ n1 ih =>
    intro w idx N hlen hwf
    obtain ⟨r, rs, hre⟩ : ∃ r rs, w.replies = r :: rs := by
      cases hc : w.replies with
      | nil => rw [hc] at hlen; simp at hlen
      | cons a l => exact ⟨a, l, rfl⟩
    have hread : rawRead false w = (r, { replies := rs, tx := w.tx ++ [Ev.recv r] }) := by
      simp only [rawRead, Bool.false_eq_true, if_false, hre]
    have hlen1 : n1 ≤ rs.length := by
      rw [hre] at hlen; simpa using hlen
    rw [drainLoop, hread]
    dsimp only
    by_cases hc : r ≠ sentinel16 ∧ (idx : ℤ) < N
    · have hmem : (idx, r) ∈ (w.replies.take (n1 + 1)).enumFrom idx := by
        rw [hre, List.take_succ_cons, List.enumFrom_cons]
        exact List.mem_cons_self _ _
      have hpr := hwf (idx, r) hmem hc.2
      rcases hpr with hsent | hok
      · exact absurd hsent hc.1
      rw [if_pos hc]
      obtain ⟨v, hv⟩ : ∃ v, parse r = Except.ok v := by
        cases hpv : parse r with
        | error e => rw [hpv] at hok; cases hok
        | ok v => exact ⟨v, rfl⟩
      rw [hv]
      have hwf1 : ∀ p ∈ (rs.take n1).enumFrom (idx + 1), ((p.1 : ℤ) < N) →
          p.2 = sentinel16 ∨ (parse p.2).isOk = true := by
        intro p hp hplt
        refine hwf p ?_ hplt
        rw [hre, List.take_succ_cons, List.enumFrom_cons]
        exact List.mem_cons_of_mem _ hp
      obtain ⟨vals, hdl, hfa⟩ :=
        ih { replies := rs, tx := w.tx ++ [Ev.recv r] } (idx + 1) N hlen1 hwf1
      rw [hdl]
      refine ⟨v :: vals, ?_, ?_⟩
      · rw [hre, List.take_succ_cons, List.drop_succ_cons]
        simp
      · rw [hre, List.take_succ_cons, List.enumFrom_cons, List.filter_cons]
        rw [if_pos (by simpa using hc)]
        exact List.Forall₂.cons hv hfa
    · rw [if_neg hc]
      have hwf1 : ∀ p ∈ (rs.take n1).enumFrom (idx + 1), ((p.1 : ℤ) < N) →
          p.2 = sentinel16 ∨ (parse p.2).isOk = true := by
        intro p hp hplt
        refine hwf p ?_ hplt
        rw [hre, List.take_succ_cons, List.enumFrom_cons]
        exact List.mem_cons_of_mem _ hp
      obtain ⟨vals, hdl, hfa⟩ :=
        ih { replies := rs, tx := w.tx ++ [Ev.recv r] } (idx + 1) N hlen1 hwf1
      rw [hdl]
      refine ⟨vals, ?_, ?_⟩
      · rw [hre, List.take_succ_cons, List.drop_succ_cons]
        simp
      · rw [hre, List.take_succ_cons, List.enumFrom_cons, List.filter_cons]
        rw [if_neg (by simpa using hc)]
        exact hfa

/-- C1 (amended): in non-simulate mode with max_time 0,
keithley199._measurement_fetch_multi_point performs exactly 500 (the
199 READINGS_MEMORY_SIZE) receive operations over well-formed records
(each record among the first min(N,500) positions is the sentinel or
grammar-valid; N = 0 and N above 500 both act as 500), does not touch
the configuration state, and returns the decoded non-sentinel records
among the first N positions of the transmission, in order -- a sentinel
record is skipped from the output but still consumes one of the N
positions, so the result is NOT in general the first N non-sentinel
records. -/
theorem claim1_drain_by_position (st : St199) (w : Wire) (N : ℤ)
    (hsim : st.simulate = false) (hlen : 500 ≤ w.replies.length)
    (hwf : ∀ p ∈ (w.replies.take 500).enumFrom 0,
        ((p.1 : ℤ) < (if N = 0 then 500 else N)) →
        p.2 = sentinel16 ∨ (parse199 p.2).isOk = true) :
    ∃ vals,
      (fetchMP199 st w 0 N).out = Except.ok (some vals)
      ∧ (fetchMP199 st w 0 N).st = st
      ∧ recvCount (fetchMP199 st w 0 N).w.tx = recvCount w.tx + 500
      ∧ List.Forall₂ (fun r v => parse199 r = Except.ok v)
          ((((w.replies.take 500).enumFrom 0).filter
              (fun p => decide (p.2 ≠ sentinel16
                ∧ (p.1 : ℤ) < (if N = 0 then 500 else N)))).map Prod.snd)
          vals := by
  obtain ⟨vals, hdl, hfa⟩ := drainLoop_spec parse199 500 w 0 (if N = 0 then 500 else N) hlen hwf
  refine ⟨vals, ?_, ?_, ?_, hfa⟩ <;>
    (unfold fetchMP199
     rw [hsim]
     simp only [Bool.false_eq_true, if_false, eq_self_iff_true, not_true]
     rw [hdl]
     try dsimp only)
  rw [recvCount_append, recvCount_map_recv, List.length_take]
  omega

/-- C1 counterexample: with one pending sentinel record followed by a
valid reading and N = 1 requested measurement, the drain returns the
empty list although one non-sentinel record (which parses) is present:
the sentinel consumed the single position, so the claim's "the first N
non-sentinel records are returned; a sentinel does not count toward N"
fails on the code. -/
theorem claim1_counterexample :
    (fetchMP199 stEx199 wSentFirst500 0 1).out = Except.ok (some [])
    ∧ (wSentFirst500.replies.filter (fun r => decide (r ≠ sentinel16))).take 1
        = ["NDCV+09.99354E+0,B000,C0"]
    ∧ parse199 "NDCV+09.99354E+0,B000,C0"
        = Except.ok (PyFloat.fin (Rat.divInt 999354 100000)) := by decide

/-- C1 witness: the amended theorem applied to the sentinel-first stream
with N = 2: the run completes with exactly 500 receives. -/
theorem claim1_witness :
    recvCount (fetchMP199 stEx199 wSentFirst500 0 2).w.tx
      = recvCount wSentFirst500.tx + 500 := by
  obtain ⟨vals, h1, h2, h3, h4⟩ :=
    claim1_drain_by_position stEx199 wSentFirst500 2 rfl (by decide) (by decide)
  exact h3

/-- Helper: what the first-fit scan returns on a table whose keys
ascend: a code whose key covers the magnitude and is least among all
covering keys. -/
theorem firstGE_some_spec {tbl : List (ℚ × String)} {m : ℚ} {code : String}
    (hs : tbl.Pairwise (fun a b => a.1 < b.1))
    (h : firstGE tbl m = some code) :
    ∃ k, (k, code) ∈ tbl ∧ |m| ≤ k ∧ ∀ p ∈ tbl, |m| ≤ p.1 → k ≤ p.1 := by
  induction tbl with
  | nil => cases h
  | cons hd tl ih =>
    obtain ⟨k0, c0⟩ := hd
    obtain ⟨h1, h2⟩ := List.pairwise_cons.mp hs
    rw [firstGE] at h
    by_cases hle : |m| ≤ k0
    · rw [if_pos hle] at h
      injection h with h
      subst h
      refine ⟨k0, List.mem_cons_self _ _, hle, ?_⟩
      intro p hp _
      rcases List.mem_cons.mp hp with rfl | htl
      · exact le_refl _
      · exact le_of_lt (h1 p htl)
    · rw [if_neg hle] at h
      obtain ⟨k, hk, hmk, hmin⟩ := ih h2 h
      refine ⟨k, List.mem_cons_of_mem _ hk, hmk, ?_⟩
      intro p hp hm2
      rcases List.mem_cons.mp hp with rfl | htl
      · exact absurd hm2 hle
      · exact hmin p htl hm2

/-- Helper: the first-fit scan fails exactly when no key covers the
magnitude. -/
theorem firstGE_none {tbl : List (ℚ × String)} {m : ℚ}
    (h : ∀ p ∈ tbl, p.1 < |m|) : firstGE tbl m = none := by
  induction tbl with
  | nil => rfl
  | cons hd tl ih =>
    obtain ⟨k0, c0⟩ := hd
    rw [firstGE, if_neg (not_le.mpr (h (k0, c0) (List.mem_cons_self _ _)))]
    exact ih (fun p hp => h p (List.mem_cons_of_mem _ hp))

/-- Helper: the first-fit scan succeeds when some key covers the
magnitude. -/
theorem firstGE_isSome {tbl : List (ℚ × String)} {m : ℚ}
    (h : ∃ p ∈ tbl, |m| ≤ p.1) : (firstGE tbl m).isSome := by
  induction tbl with
  | nil => obtain ⟨p, hp, _⟩ := h; cases hp
  | cons hd tl ih =>
    obtain ⟨k0, c0⟩ := hd
    rw [firstGE]
    by_cases hle : |m| ≤ k0
    · rw [if_pos hle]; rfl
    · rw [if_neg hle]
      refine ih ?_
      obtain ⟨p, hp, hpm⟩ := h
      rcases List.mem_cons.mp hp with rfl | htl
      · exact absurd hpm hle
      · exact ⟨p, htl, hpm⟩

/-- Helper: every range table of keithley199 has strictly ascending
keys. -/
theorem rangeMapping199_sorted {mf : String} {tbl : List (ℚ × String)}
    (h : lookupStr RangeMapping199 mf = some tbl) :
    tbl.Pairwise (fun a b => a.1 < b.1) := by
  simp only [RangeMapping199, lookupStr] at h
  split_ifs at h <;> cases h <;> norm_num [List.pairwise_cons]

/-- Helper: every range table of keithley192 has strictly ascending
keys. -/
theorem rangeMapping192_sorted {mf : String} {tbl : List (ℚ × String)}
    (h : lookupStr RangeMapping192 mf = some tbl) :
    tbl.Pairwise (fun a b => a.1 < b.1) := by
  simp only [RangeMapping192, lookupStr] at h
  split_ifs at h <;> cases h <;> norm_num [List.pairwise_cons]

/-- Helper: in non-simulate mode the 192 write always sends exactly its
command. -/
theorem write192_sendsOf (st : St192) (w : Wire) (d : String) (cd : Bool)
    (h : st.simulate = false) :
    sendsOf (write192 st w d cd).tx = sendsOf w.tx ++ [d] := by
  unfold write192
  split_ifs with hc
  · unfold rawAsk
    rw [h, rawRead_false_tx, rawWrite_false]
    simp [sendsOf_append, sendsOf]
  · rw [h, rawWrite_false]
    simp [sendsOf_append, sendsOf]

/-- C2: for keithley199 and keithley192, whenever some key of the
current function's range table covers the magnitude, _set_range
succeeds, stores the magnitude, and (non-simulating) emits the command
of the code attached to the smallest covering key -- the scan takes the
first key at or above the absolute magnitude in ascending-key order,
never a larger one. -/
theorem claim2_lowest_suitable_range :
    (∀ (st : St199) (w : Wire) (M : ℚ) (tbl : List (ℚ × String)),
      st.simulate = false →
      lookupStr RangeMapping199 st.measFunc = some tbl →
      (∃ p ∈ tbl, |M| ≤ p.1) →
      ∃ k code,
        (k, code) ∈ tbl ∧ |M| ≤ k
        ∧ (∀ p ∈ tbl, |M| ≤ p.1 → k ≤ p.1)
        ∧ (setRange199 st w M).out = Except.ok ()
        ∧ (setRange199 st w M).st = { st with range := M }
        ∧ sendsOf (setRange199 st w M).w.tx = sendsOf w.tx ++ ["R" ++ code ++ "X"])
    ∧ (∀ (st : St192) (w : Wire) (M : ℚ) (tbl : List (ℚ × String)),
      st.simulate = false →
      lookupStr RangeMapping192 st.measFunc = some tbl →
      (∃ p ∈ tbl, |M| ≤ p.1) →
      ∃ k code,
        (k, code) ∈ tbl ∧ |M| ≤ k
        ∧ (∀ p ∈ tbl, |M| ≤ p.1 → k ≤ p.1)
        ∧ (setRange192 st w M).out = Except.ok ()
        ∧ (setRange192 st w M).st = { st with range := M }
        ∧ sendsOf (setRange192 st w M).w.tx = sendsOf w.tx ++ ["R" ++ code ++ "X"]) := by
  constructor
  · intro st w M tbl hsim htbl hcov
    obtain ⟨code, hfg⟩ := Option.isSome_iff_exists.mp (firstGE_isSome hcov)
    obtain ⟨k, hk, hmk, hmin⟩ := firstGE_some_spec (rangeMapping199_sorted htbl) hfg
    refine ⟨k, code, hk, hmk, hmin, ?_, ?_, ?_⟩ <;>
      (unfold setRange199
       rw [htbl]
       dsimp only
       rw [hfg]
       dsimp only
       rw [hsim]
       simp only [Bool.false_eq_true, if_false]
       try dsimp only)
    exact write199_sendsOf _ w _ true rfl
  · intro st w M tbl hsim htbl hcov
    obtain ⟨code, hfg⟩ := Option.isSome_iff_exists.mp (firstGE_isSome hcov)
    obtain ⟨k, hk, hmk, hmin⟩ := firstGE_some_spec (rangeMapping192_sorted htbl) hfg
    refine ⟨k, code, hk, hmk, hmin, ?_, ?_, ?_⟩ <;>
      (unfold setRange192
       rw [htbl]
       dsimp only
       rw [hfg]
       dsimp only
       rw [hsim]
       simp only [Bool.false_eq_true, if_false]
       try dsimp only)
    exact write192_sendsOf _ w _ true rfl

/-- C2 witness: the theorem applied to the 199 dc_volts table at
magnitude 5 (covered by the 30-volt key). -/
theorem claim2_witness :
    (setRange199 stEx199 wEmpty 5).out = Except.ok ()
    ∧ (setRange199 stEx199 wEmpty 5).st = { stEx199 with range := 5 } := by
  obtain ⟨k, code, hk, hmk, hmin, hout, hst, hsend⟩ :=
    claim2_lowest_suitable_range.1 stEx199 wEmpty 5 _ rfl rfl
      ⟨(30.0, "3"), List.Mem.tail _ (List.Mem.tail _ (List.Mem.head _)), by
        rw [abs_of_nonneg (by norm_num : (0 : ℚ) ≤ 5)]; norm_num⟩
  exact ⟨hout, hst⟩

/-- C3 (amended): when no key of the current function's range table
covers the requested magnitude, _set_range of keithley199 and of
philipsPM2534 raises ValueNotSupported (the drivers define no separate
RangeNotSupported error), sends nothing, and leaves the state
unchanged. -/
theorem claim3_amended :
    (∀ (st : St199) (w : Wire) (M : ℚ) (tbl : List (ℚ × String)),
      lookupStr RangeMapping199 st.measFunc = some tbl →
      (∀ p ∈ tbl, p.1 < |M|) →
      setRange199 st w M = ⟨st, w, Except.error IviError.valueNotSupported⟩)
    ∧ (∀ (st : StPhilips) (w : Wire) (M : ℚ) (mx : ℚ),
      lookupStr RangeMaxPhilips st.measFunc = some mx →
      mx < |M| →
      setRangePhilips st w M = ⟨st, w, Except.error IviError.valueNotSupported⟩) := by
  constructor
  · intro st w M tbl htbl hnone
    unfold setRange199
    rw [htbl]
    dsimp only
    rw [firstGE_none hnone]
  · intro st w M mx hmx hlt
    unfold setRangePhilips
    rw [hmx]
    dsimp only
    rw [if_pos (not_le.mpr hlt)]

/-- C3 counterexample: on keithley199 with function dc_current (largest
key 3.0) and magnitude 5, the raised error is ValueNotSupported, which
is a different error kind from the RangeNotSupported the claim
demands. -/
theorem claim3_counterexample :
    (setRange199 { stEx199 with measFunc := "dc_current" } wEmpty 5).out
        = Except.error IviError.valueNotSupported
    ∧ IviError.valueNotSupported ≠ IviError.rangeNotSupported := by
  constructor
  · unfold setRange199
    have htbl : lookupStr RangeMapping199 "dc_current"
        = some [((0.03 : ℚ), "1"), ((3.0 : ℚ), "2")] := rfl
    rw [show ({ stEx199 with measFunc := "dc_current" } : St199).measFunc
          = "dc_current" from rfl, htbl]
    dsimp only
    rw [firstGE_none ?hn]
    case hn =>
      intro p hp
      rw [abs_of_nonneg (by norm_num : (0 : ℚ) ≤ 5)]
      rcases List.mem_cons.mp hp with rfl | hp2
      · norm_num
      · rcases List.mem_cons.mp hp2 with rfl | hp3
        · norm_num
        · cases hp3
  · decide

/-- C3 witness: the amended theorem applied to the same concrete
overlarge magnitude. -/
theorem claim3_witness :
    setRange199 { stEx199 with measFunc := "dc_current" } wEmpty 7
      = ⟨{ stEx199 with measFunc := "dc_current" }, wEmpty,
          Except.error IviError.valueNotSupported⟩ := by
  refine claim3_amended.1 _ wEmpty 7 [((0.03 : ℚ), "1"), ((3.0 : ℚ), "2")] rfl ?_
  intro p hp
  rw [abs_of_nonneg (by norm_num : (0 : ℚ) ≤ 7)]
  rcases List.mem_cons.mp hp with rfl | hp2
  · norm_num
  · rcases List.mem_cons.mp hp2 with rfl | hp3
    · norm_num
    · cases hp3

/-- C4 (amended): a multi-point count request that passes the per-field
check (1 < v ≤ 500) but violates the cross-field whitelist (sample count
already above 1, so both counts would exceed 1) makes
keithley199._set_trigger_multi_point_count raise ValueNotSupported and
send nothing; however the field being set has already been updated to
the new value when the error is raised, because the cached update
precedes the whitelist check (the other fields are unchanged). -/
theorem claim4_count_mutated_before_check (st : St199) (w : Wire) (v : ℤ)
    (h1 : 1 < v) (h2 : v ≤ 500) (hsc : 1 < st.mpSampleCount) :
    setMPCount199 st w v false
      = ⟨{ st with mpCount := v }, w, Except.error IviError.valueNotSupported⟩ := by
  unfold setMPCount199
  rw [if_neg (show ¬ v = 0 by omega)]
  rw [if_neg (show ¬ ¬ (1 ≤ v ∧ v ≤ 500) from fun hn => hn ⟨by omega, h2⟩)]
  simp only [Bool.false_eq_true, if_false]
  have hsetup : setupMP199 { st with mpCount := v } w
      = (w, some IviError.valueNotSupported) := by
    unfold setupMP199
    rw [if_neg (fun hc : ({ st with mpCount := v } : St199).mpSampleCount = 1
          ∧ ({ st with mpCount := v } : St199).mpCount = 1 => by
        have := hc.1
        dsimp only at this
        omega)]
    rw [if_pos (show 1 < min ({ st with mpCount := v } : St199).mpSampleCount
          ({ st with mpCount := v } : St199).mpCount by
        dsimp only
        exact lt_min hsc h1)]
  rw [hsetup]

/-- C4 counterexample: with sample count 100 and trigger count 1,
requesting trigger count 2 raises ValueNotSupported and sends nothing,
but the cached trigger count is now 2, not its previous value 1 -- the
claim that every Configuration State field keeps its previous value
fails. -/
theorem claim4_counterexample :
    (setMPCount199 { stEx199 with mpSampleCount := 100 } wEmpty 2 false).out
        = Except.error IviError.valueNotSupported
    ∧ (setMPCount199 { stEx199 with mpSampleCount := 100 } wEmpty 2 false).w = wEmpty
    ∧ ({ stEx199 with mpSampleCount := 100 } : St199).mpCount = 1
    ∧ (setMPCount199 { stEx199 with mpSampleCount := 100 } wEmpty 2 false).st.mpCount = 2 := by
  refine ⟨?_, ?_, by decide, ?_⟩ <;> decide

/-- C4 witness: the amended theorem applied to the same violating
request. -/
theorem claim4_witness :
    setMPCount199 { stEx199 with mpSampleCount := 100 } wEmpty 2 false
      = ⟨{ { stEx199 with mpSampleCount := 100 } with mpCount := 2 }, wEmpty,
          Except.error IviError.valueNotSupported⟩ :=
  claim4_count_mutated_before_check _ wEmpty 2 (by omega) (by omega) (by decide)

/-- Helper: the 192 write reduces to a raw write whenever its clear-data
condition fails. -/
theorem write192_plain (st : St192) (w : Wire) (d : String) (cd : Bool)
    (h : ¬ (cd ∧ d.data.getLast? = some 'X' ∧ strLower st.triggerSource = "imm")) :
    write192 st w d cd = rawWrite st.simulate w d := by
  unfold write192; rw [if_neg h]

/-- Helper: the lowercased trigger source validated against the 199
mapping is one of its three keys. -/
theorem ts199_isSome_vals {s : String}
    (h : (lookupStr TriggerSourceMapping199 (strLower s)).isSome) :
    strLower s = "immediate" ∨ strLower s = "bus" ∨ strLower s = "external" := by
  by_cases h1 : strLower s = "immediate"
  · exact Or.inl h1
  by_cases h2 : strLower s = "bus"
  · exact Or.inr (Or.inl h2)
  by_cases h3 : strLower s = "external"
  · exact Or.inr (Or.inr h3)
  exfalso
  have hn : lookupStr TriggerSourceMapping199 (strLower s) = none := by
    simp only [TriggerSourceMapping199, lookupStr]
    rw [if_neg h1, if_neg h2, if_neg h3]
  rw [hn] at h
  cases h

/-- C9: on keithley192, whenever the multi-point setup is recomputed
with multi-point enabled and emits a trigger-mode code, the code's low
bit is 1 exactly when the trigger count equals the full 100-slot memory
(single pass) and 0 otherwise; on keithley199, for every pair of
setter-validated trigger sources, the enabled setup raises
ValueNotSupported before emitting anything (its multi-point mapping is
keyed on short names the validated sources never take), so the claim
holds there vacuously: no code is ever emitted. -/
theorem claim9_one_shot_bit :
    (∀ (st : St192) (w : Wire),
      st.simulate = false →
      ¬ (st.mpSampleCount = 1 ∧ st.mpCount = 1) →
      (setupMP192 st w).2 = none →
      ∃ t, (setupMP192 st w).1.tx = w.tx ++ [Ev.send ("Q1T" ++ toString t)]
        ∧ (t % 2 = 1 ↔ st.mpCount = 100))
    ∧ (∀ (st : St199) (w : Wire),
      ¬ (st.mpSampleCount = 1 ∧ st.mpCount = 1) →
      (lookupStr TriggerSourceMapping199 (strLower st.triggerSource)).isSome →
      (lookupStr TriggerSourceMapping199 (strLower st.mpSampleTrigger)).isSome →
      (setupMP199 st w).2 = some IviError.valueNotSupported
      ∧ (setupMP199 st w).1 = w) := by
  constructor
  · intro st w hsim hen hok
    unfold setupMP192 at hok ⊢
    rw [if_neg hen] at hok ⊢
    by_cases hb1 : strLower st.triggerSource = "bus" ∧ strLower st.mpSampleTrigger = "bus"
    · rw [if_pos hb1] at hok; cases hok
    rw [if_neg hb1] at hok ⊢
    by_cases hb2 : strLower st.triggerSource = "imm" ∧ strLower st.mpSampleTrigger = "imm"
        ∧ 1 < st.mpCount
    · rw [if_pos hb2] at hok; cases hok
    rw [if_neg hb2] at hok ⊢
    dsimp only
    by_cases hbus : strLower st.triggerSource = "bus" ∨ strLower st.mpSampleTrigger = "bus" <;>
      [rw [if_pos hbus]; rw [if_neg hbus]] <;>
      (by_cases hm : st.mpCount = 100 <;> [rw [if_pos hm]; rw [if_neg hm]])
    · refine ⟨3, ?_, by simp [hm]⟩
      rw [write192_plain st w _ true (fun hx => absurd hx.2.1 (by decide)), hsim, rawWrite_false]
      simp only [Bool.false_eq_true, if_false]
      rw [show (digitsToNat ("3" : String).data &&& 254 ||| 1) = 3 from by decide]
    · refine ⟨2, ?_, by simp [hm]⟩
      rw [write192_plain st w _ true (fun hx => absurd hx.2.1 (by decide)), hsim, rawWrite_false]
      simp only [Bool.false_eq_true, if_false]
      rw [show (digitsToNat ("3" : String).data &&& 254 ||| 0) = 2 from by decide]
    · refine ⟨5, ?_, by simp [hm]⟩
      rw [write192_plain st w _ true (fun hx => absurd hx.2.1 (by decide)), hsim, rawWrite_false]
      simp only [Bool.false_eq_true, if_false]
      rw [show (digitsToNat ("5" : String).data &&& 254 ||| 1) = 5 from by decide]
    · refine ⟨4, ?_, by simp [hm]⟩
      rw [write192_plain st w _ true (fun hx => absurd hx.2.1 (by decide)), hsim, rawWrite_false]
      simp only [Bool.false_eq_true, if_false]
      rw [show (digitsToNat ("5" : String).data &&& 254 ||| 0) = 4 from by decide]
  · intro st w hen hsrc htrg
    unfold setupMP199
    rw [if_neg hen]
    by_cases h2 : 1 < min st.mpSampleCount st.mpCount
    · rw [if_pos h2]; exact ⟨rfl, rfl⟩
    · rw [if_neg h2]
      have hnone : (lookupStr MultiPointTriggerMapping199 (strLower st.triggerSource)).bind
          (fun inner => lookupStr inner (strLower st.mpSampleTrigger)) = none := by
        rcases ts199_isSome_vals hsrc with hs | hs | hs <;>
          rcases ts199_isSome_vals htrg with ht | ht | ht <;>
            rw [hs, ht] <;> decide
      rw [hnone]
      exact ⟨rfl, rfl⟩

/-- C9 witness: the theorem applied to a concrete 192 configuration
(bus trigger, trigger count 100): the setup emits exactly one
command. -/
theorem claim9_witness :
    (sendsOf (setupMP192 stEx192 wEmpty).1.tx).length = 1 := by
  obtain ⟨t, h1, h2⟩ := claim9_one_shot_bit.1 stEx192 wEmpty rfl (by decide) (by decide)
  rw [h1]
  simp [sendsOf, wEmpty]

/-- Helper: in simulate mode the 199 write touches nothing. -/
theorem write199_sim (st : St199) (w : Wire) (d : String) (cd : Bool)
    (h : st.simulate = true) : write199 st w d cd = w := by
  unfold write199 rawAsk rawRead rawWrite
  rw [h]
  split_ifs <;> first | rfl | exact absurd rfl (by assumption)

/-- Helper: in simulate mode the multi-point setup touches the wire in
no branch. -/
theorem setupMP199_sim_wire (st : St199) (w : Wire)
    (h : st.simulate = true) : (setupMP199 st w).1 = w := by
  unfold setupMP199
  rw [h]
  split_ifs <;> try rfl
  all_goals try exact absurd rfl (by assumption)
  all_goals
    cases (lookupStr MultiPointTriggerMapping199 (strLower st.triggerSource)).bind
        (fun inner => lookupStr inner (strLower st.mpSampleTrigger)) <;>
      first | rfl | exact absurd rfl (by assumption)

/-- Helper: with a valid trigger source, the multi-point setup raises
the same exception (or none) in simulate and non-simulate mode. -/
theorem setupMP199_out_parity (st : St199) (w : Wire)
    (hsim : st.simulate = true)
    (hts : (lookupStr TriggerSourceMapping199 (strLower st.triggerSource)).isSome) :
    (setupMP199 st w).2 = (setupMP199 (noSim199 st) w).2 := by
  obtain ⟨code, hcode⟩ := Option.isSome_iff_exists.mp hts
  unfold setupMP199 noSim199
  dsimp only
  rw [hsim, hcode]
  split_ifs <;> try rfl
  all_goals try exact absurd rfl (by assumption)
  all_goals
    cases (lookupStr MultiPointTriggerMapping199 (strLower st.triggerSource)).bind
        (fun inner => lookupStr inner (strLower st.mpSampleTrigger)) <;>
      first | rfl | exact absurd rfl (by assumption)

/-- C5 (amended): with simulate set, every modelled setter and
measurement operation of the keithley199 (and the cited prema
measurement-function setter and philips range setter) performs no
transport send and no receive; the setters additionally perform exactly
the same input validation and the same Configuration State update as the
corresponding non-simulate call.  The measurement operations, whose
simulate guard comes first, return the no-data indicator without their
input validation (for example fetch_multi_point does not reject
max_time different from 0 in simulate mode, see the counterexample),
and _set_auto_range performs its nested range re-validation only in
non-simulate mode, so the parity conjunct for it covers the on and the
rejected inputs. -/
theorem claim5_simulate_parity (st : St199) (w : Wire) (stp : StPrema) (stq : StPhilips)
    (hsim : st.simulate = true) (hp : stp.simulate = true) (hq : stq.simulate = true)
    (hts : (lookupStr TriggerSourceMapping199 (strLower st.triggerSource)).isSome) :
    (∀ v, (setTriggerSource199 st w v).w = w)
    ∧ (∀ v, (setTriggerDelay199 st w v).w = w)
    ∧ (∀ v, (setTriggerDelayAuto199 st w v).w = w)
    ∧ (∀ v, (setMeasurementFunction199 st w v).w = w)
    ∧ (∀ v, (setRange199 st w v).w = w)
    ∧ (∀ v, (setAutoRange199 st w v).w = w)
    ∧ (∀ v, (setMCDest199 st w v).w = w)
    ∧ (∀ v b, (setMPCount199 st w v b).w = w)
    ∧ (∀ v b, (setMPSampleCount199 st w v b).w = w)
    ∧ (∀ v b, (setMPSampleInterval199 st w v b).w = w)
    ∧ (∀ v b, (setMPSampleTrigger199 st w v b).w = w)
    ∧ (sendSoftwareTrigger199 st w).w = w
    ∧ (initiate199 st w).w = w
    ∧ (∀ mt, (fetch199 st w mt).w = w)
    ∧ (∀ mt, (read199 st w mt).w = w)
    ∧ (∀ mt n, (fetchMP199 st w mt n).w = w)
    ∧ (∀ mt n, (readMP199 st w mt n).w = w)
    ∧ (∀ v, (setMeasurementFunctionPrema stp w v).w = w)
    ∧ (∀ v, (setRangePhilips stq w v).w = w)
    ∧ (∀ v, (setTriggerSource199 st w v).out = (setTriggerSource199 (noSim199 st) w v).out
        ∧ noSim199 (setTriggerSource199 st w v).st = (setTriggerSource199 (noSim199 st) w v).st)
    ∧ (∀ v, (setTriggerDelay199 st w v).out = (setTriggerDelay199 (noSim199 st) w v).out
        ∧ noSim199 (setTriggerDelay199 st w v).st = (setTriggerDelay199 (noSim199 st) w v).st)
    ∧ (∀ v, (setTriggerDelayAuto199 st w v).out = (setTriggerDelayAuto199 (noSim199 st) w v).out
        ∧ noSim199 (setTriggerDelayAuto199 st w v).st
            = (setTriggerDelayAuto199 (noSim199 st) w v).st)
    ∧ (∀ v, (setMeasurementFunction199 st w v).out
            = (setMeasurementFunction199 (noSim199 st) w v).out
        ∧ noSim199 (setMeasurementFunction199 st w v).st
            = (setMeasurementFunction199 (noSim199 st) w v).st)
    ∧ (∀ v, (setRange199 st w v).out = (setRange199 (noSim199 st) w v).out
        ∧ noSim199 (setRange199 st w v).st = (setRange199 (noSim199 st) w v).st)
    ∧ (∀ v, v = "on" ∨ ¬ (strLower v = "on" ∨ strLower v = "off") →
        (setAutoRange199 st w v).out = (setAutoRange199 (noSim199 st) w v).out
        ∧ noSim199 (setAutoRange199 st w v).st = (setAutoRange199 (noSim199 st) w v).st)
    ∧ (∀ v, (setMCDest199 st w v).out = (setMCDest199 (noSim199 st) w v).out
        ∧ noSim199 (setMCDest199 st w v).st = (setMCDest199 (noSim199 st) w v).st)
    ∧ (∀ v b, (setMPCount199 st w v b).out = (setMPCount199 (noSim199 st) w v b).out
        ∧ noSim199 (setMPCount199 st w v b).st = (setMPCount199 (noSim199 st) w v b).st)
    ∧ (∀ v b, (setMPSampleCount199 st w v b).out = (setMPSampleCount199 (noSim199 st) w v b).out
        ∧ noSim199 (setMPSampleCount199 st w v b).st
            = (setMPSampleCount199 (noSim199 st) w v b).st)
    ∧ (∀ v b, (setMPSampleInterval199 st w v b).out
            = (setMPSampleInterval199 (noSim199 st) w v b).out
        ∧ noSim199 (setMPSampleInterval199 st w v b).st
            = (setMPSampleInterval199 (noSim199 st) w v b).st)
    ∧ (∀ v b, (setMPSampleTrigger199 st w v b).out
            = (setMPSampleTrigger199 (noSim199 st) w v b).out
        ∧ noSim199 (setMPSampleTrigger199 st w v b).st
            = (setMPSampleTrigger199 (noSim199 st) w v b).st)
    ∧ (∀ v, (setMeasurementFunctionPrema stp w v).out
            = (setMeasurementFunctionPrema (noSimPrema stp) w v).out
        ∧ noSimPrema (setMeasurementFunctionPrema stp w v).st
            = (setMeasurementFunctionPrema (noSimPrema stp) w v).st)
    ∧ (∀ v, (setRangePhilips stq w v).out = (setRangePhilips (noSimPhilips stq) w v).out
        ∧ noSimPhilips (setRangePhilips stq w v).st
            = (setRangePhilips (noSimPhilips stq) w v).st) := by
  have hparity : ∀ st1 : St199, st1.simulate = true →
      (lookupStr TriggerSourceMapping199 (strLower st1.triggerSource)).isSome →
      ∀ ww, (match (setupMP199 st1 ww).2 with
          | some err => Except.error err
          | none => Except.ok () : Except IviError Unit)
        = (match (setupMP199 (noSim199 st1) ww).2 with
          | some err => Except.error err
          | none => Except.ok ()) := by
    intro st1 h1 h2 ww
    rw [setupMP199_out_parity st1 ww h1 h2]
  obtain ⟨sim, ts, mf, rg, ar, dl, da, tc, sc, strg, si, mc⟩ := st
  obtain ⟨simp2, mfp⟩ := stp
  obtain ⟨simq, mfq, rgq⟩ := stq
  dsimp only at hsim hp hq hts
  subst hsim hp hq
  refine ⟨?_, ?_, ?_, ?_, ?_, ?_, ?_, ?_, ?_, ?_, ?_, rfl, rfl, fun _ => rfl, fun _ => rfl,
    fun _ _ => rfl, fun _ _ => rfl, ?_, ?_, ?_, ?_, ?_, ?_, ?_, ?_, ?_, ?_, ?_, ?_, ?_, ?_, ?_⟩
  · intro v
    unfold setTriggerSource199
    cases lookupStr TriggerSourceMapping199 (strLower v) <;> rfl
  · intro v
    unfold setTriggerDelay199
    split_ifs <;> rfl
  · intro v
    cases v
    · rfl
    · unfold setTriggerDelayAuto199 setTriggerDelay199
      rw [if_neg (by norm_num : ¬ (999.999 : ℚ) < 0)]
      rfl
  · intro v
    unfold setMeasurementFunction199
    cases lookupStr MeasurementFunctionMapping199 (strLower v) with
    | none => rfl
    | some code => exact write199_sim _ w _ true rfl
  · intro v
    unfold setRange199
    cases lookupStr RangeMapping199 mf with
    | none => rfl
    | some tbl =>
      dsimp only
      cases firstGE tbl v <;> rfl
  · intro v
    unfold setAutoRange199
    split_ifs <;> first | rfl | exact absurd rfl (by assumption)
  · intro v
    unfold setMCDest199
    split_ifs <;> rfl
  · intro v b
    unfold setMPCount199
    dsimp only
    split_ifs <;> first | rfl | exact setupMP199_sim_wire _ w rfl
  · intro v b
    unfold setMPSampleCount199
    dsimp only
    split_ifs <;> first | rfl | exact setupMP199_sim_wire _ w rfl
  · intro v b
    unfold setMPSampleInterval199
    dsimp only
    split_ifs <;> first | rfl | exact setupMP199_sim_wire _ w rfl
  · intro v b
    unfold setMPSampleTrigger199
    cases lookupStr TriggerSourceMapping199 (strLower v) with
    | none => rfl
    | some code =>
      dsimp only
      split_ifs <;> first | rfl | exact setupMP199_sim_wire _ w rfl
  · intro v
    unfold setMeasurementFunctionPrema
    cases lookupStr MeasurementFunctionMappingPrema (strLower v) <;> rfl
  · intro v
    unfold setRangePhilips
    cases lookupStr RangeMaxPhilips mfq with
    | none => rfl
    | some mx =>
      dsimp only
      split_ifs <;> rfl
  · intro v
    unfold setTriggerSource199
    cases lookupStr TriggerSourceMapping199 (strLower v) <;> exact ⟨rfl, rfl⟩
  · intro v
    unfold setTriggerDelay199
    split_ifs <;> exact ⟨rfl, rfl⟩
  · intro v
    cases v
    · exact ⟨rfl, rfl⟩
    · unfold setTriggerDelayAuto199 setTriggerDelay199
      refine ⟨?_, ?_⟩ <;>
        simp only [if_neg (by norm_num : ¬ (999.999 : ℚ) < 0), noSim199, reduceIte] <;> rfl
  · intro v
    unfold setMeasurementFunction199
    cases lookupStr MeasurementFunctionMapping199 (strLower v) <;> exact ⟨rfl, rfl⟩
  · intro v
    unfold setRange199 noSim199
    dsimp only
    cases lookupStr RangeMapping199 mf with
    | none => exact ⟨rfl, rfl⟩
    | some tbl =>
      dsimp only
      cases firstGE tbl v <;> exact ⟨rfl, rfl⟩
  · intro v hv
    rcases hv with rfl | hinv
    · exact ⟨rfl, rfl⟩
    · unfold setAutoRange199
      simp only [if_pos hinv, and_self]
  · intro v
    unfold setMCDest199
    split_ifs <;> exact ⟨rfl, rfl⟩
  · intro v b
    unfold setMPCount199
    dsimp only
    split_ifs <;> first
      | exact ⟨rfl, rfl⟩
      | exact ⟨hparity _ rfl hts w, rfl⟩
  · intro v b
    unfold setMPSampleCount199
    dsimp only
    split_ifs <;> first
      | exact ⟨rfl, rfl⟩
      | exact ⟨hparity _ rfl hts w, rfl⟩
  · intro v b
    unfold setMPSampleInterval199
    dsimp only
    split_ifs <;> first
      | exact ⟨rfl, rfl⟩
      | exact ⟨hparity _ rfl hts w, rfl⟩
  · intro v b
    unfold setMPSampleTrigger199
    cases lookupStr TriggerSourceMapping199 (strLower v) with
    | none => exact ⟨rfl, rfl⟩
    | some code =>
      dsimp only
      split_ifs <;> first
        | exact ⟨rfl, rfl⟩
        | exact ⟨hparity _ rfl hts w, rfl⟩
  · intro v
    unfold setMeasurementFunctionPrema
    cases lookupStr MeasurementFunctionMappingPrema (strLower v) <;> exact ⟨rfl, rfl⟩
  · intro v
    unfold setRangePhilips noSimPhilips
    dsimp only
    cases lookupStr RangeMaxPhilips mfq with
    | none => exact ⟨rfl, rfl⟩
    | some mx =>
      dsimp only
      split_ifs <;> exact ⟨rfl, rfl⟩

/-- C5 counterexample: fetch_multi_point with max_time 1 succeeds in
simulate mode (returning the no-data indicator) but raises
ValueNotSupported in non-simulate mode: the simulate path skips the
max_time validation, refuting "the same input validation as in
non-simulate mode" for the measurement operations. -/
theorem claim5_counterexample :
    (fetchMP199 { stEx199 with simulate := true } wEmpty 1 0).out = Except.ok none
    ∧ (fetchMP199 stEx199 wEmpty 1 0).out = Except.error IviError.valueNotSupported := by
  constructor
  · rfl
  · rfl

/-- C5 witness: the theorem applied at a concrete simulate-mode state;
the measurement-function setter (which has no simulate guard of its own
in the source) still sends nothing. -/
theorem claim5_witness :
    (setMeasurementFunction199 { stEx199 with simulate := true } wEmpty "ac_volts").w = wEmpty
    ∧ (fetchMP199 { stEx199 with simulate := true } wEmpty 1 5).w = wEmpty := by
  have h := claim5_simulate_parity { stEx199 with simulate := true } wEmpty
    ⟨true, "dc_volts"⟩ ⟨true, "dc_volts", 0⟩ rfl rfl rfl (by decide)
  exact ⟨h.2.2.2.1 "ac_volts", h.2.2.2.2.2.2.2.2.2.2.2.2.2.2.2.1 1 5⟩

end Claims
